import Mathlib

/-!
Shallow embedding of `src/services.py` (AWS Resource Explorer service
discovery tool).

Modelling conventions:
* A raw resource record (a Python dict) is an association list
  `Resource = List (String × Val)` with unique keys; a value is either a
  string or a nested object (`Val`).  The program's scalar fields
  (`Arn`, `Region`, `ResourceType`, `Service`, ...) are strings in every
  record the program builds or receives; object values in a scalar
  position have no defined program behaviour (Python would raise a
  `TypeError`/`AttributeError` inside the surrounding `try`), and the
  model maps them to the empty string at the few places noted below.
* Python truthiness: an empty string and an empty dict are falsy.
* Python single-character `str.split`, slicing and `ljust` are modelled
  character-exactly over `String.data` (`List Char`), matching Python's
  code-point semantics.
* Remote-client behaviour (the boto3 calls) is a parameter: a list of
  result pages plus an optional exception raised while paginating.
  A function's caller-visible outcome is an `Except AwsError` value, so
  "an exception propagates out of the function" is `Except.error`.
-/

set_option maxRecDepth 4000

/-- A Python value appearing in a resource record: a string or a nested
object (dict). -/
inductive Val where
  | str (s : String)
  | obj (fields : List (String × Val))

/-- Python truthiness of a `Val`: empty strings and empty dicts are falsy. -/
def truthy : Val → Bool
  | Val.str s => s ≠ ""
  | Val.obj l => !l.isEmpty

/-- A raw resource record: a Python dict with string keys (keys unique). -/
abbrev Resource : Type := List (String × Val)

/-- `d.get(k)`: look a key up in a record, `none` when absent. -/
def pyGet (r : Resource) (k : String) : Option Val :=
  (List.find? (fun p => p.1 == k) r).map (fun p => p.2)

/-- Python `a or b` over optional values (`none` models Python `None` /
an absent key): the first operand when truthy, otherwise the second. -/
def pyOrOpt (a b : Option Val) : Option Val :=
  match a with
  | some v => if truthy v then some v else b
  | none => b

/-- Python `x or ''`: the value when truthy, otherwise the empty string. -/
def pyOrEmpty (a : Option Val) : Val :=
  match a with
  | some v => if truthy v then v else Val.str ""
  | none => Val.str ""

/-- `str(cell)` for the string-valued cells the program produces.  An
object value in a cell position is outside the string-fields model and
rendered as the empty string. -/
def pyStr : Val → String
  | Val.str s => s
  | Val.obj _ => ""

/-- Python `s.split(c)` for a single-character separator, over the list
of characters: always at least one (possibly empty) group. -/
def splitChar (sep : Char) : List Char → List (List Char)
  | [] => [[]]
  | c :: rest =>
    match splitChar sep rest with
    | [] => [[]]
    | g :: gs => if c = sep then [] :: g :: gs else (c :: g) :: gs

/-- Python `s.split(c)` on strings. -/
def pySplit (s : String) (sep : Char) : List String :=
  (splitChar sep s.data).map String.mk

/-- Python `c in s` for a single character. -/
def pyContains (s : String) (c : Char) : Bool :=
  s.data.contains c

/-- Python `s.startswith(p)`. -/
def pyStartsWith (s p : String) : Bool :=
  List.isPrefixOf p.data s.data

/-- Python `s[:k]` (slice from the start, `k` may be negative). -/
def pySliceTo (s : String) (k : Int) : String :=
  if 0 ≤ k then String.mk (s.data.take k.toNat)
  else String.mk (s.data.take (s.data.length - min s.data.length k.natAbs))

/-- Python `s[-k:]` (slice of the last `k` characters when `k > 0`). -/
def pySliceLast (s : String) (k : Int) : String :=
  if 0 < k then String.mk (s.data.drop (s.data.length - min s.data.length k.toNat))
  else if k = 0 then s
  else String.mk (s.data.drop k.natAbs)

/-- Python `s.ljust(w)`: pad with spaces on the right up to width `w`. -/
def pyLjust (s : String) (w : Nat) : String :=
  s ++ String.mk (List.replicate (w - s.length) ' ')

/-- `_get_region_from_arn` (src/services.py lines 7-15): extract the
region segment from an ARN when possible. -/
def _get_region_from_arn (arn : String) : String :=
  if arn = "" ∨ ¬ pyStartsWith arn "arn:" then ""
  else
    let parts := pySplit arn ':'
    if parts.length > 4 then parts.getD 3 "" else ""

/-- `json.loads` applied to an encoded structured-properties string.
Modelled from the spec: the decoder itself is the Python standard
library, not part of src/; the spec only requires that "decoding a
malformed structured-properties string must not raise — treat as absent
and continue the fallback chain", so the model treats every encoded
string as unparseable (no claim depends on a successful parse). -/
def jsonParse (_s : String) : Option Val := none

/-- The direct name fields probed first by `_get_resource_name`. -/
def directKeys : List String := ["ResourceName", "Title", "Name", "DisplayName"]

/-- The keys probed inside a structured properties object. -/
def propKeys : List String := ["name", "Name", "title", "Title", "resourceName"]

/-- First truthy value among the given record keys (`if val: return val`). -/
def firstTruthyKey (r : Resource) : List String → Option Val
  | [] => none
  | k :: ks =>
    match pyGet r k with
    | some v => if truthy v then some v else firstTruthyKey r ks
    | none => firstTruthyKey r ks

/-- First hit in the properties object: `if k in pdata and pdata[k]`. -/
def firstPropHit (l : List (String × Val)) : List String → Option Val
  | [] => none
  | k :: ks =>
    match pyGet l k with
    | some v => if truthy v then some v else firstPropHit l ks
    | none => firstPropHit l ks

/-- `_get_resource_name` (src/services.py lines 18-57): best-effort
display name via direct fields, then a structured properties object,
then ARN-segment parsing. -/
def _get_resource_name (r : Resource) : Val :=
  match r with
  | [] => Val.str ""
  | _ =>
    match firstTruthyKey r directKeys with
    | some v => v
    | none =>
      let props := pyOrOpt (pyGet r "Properties")
        (pyOrOpt (pyGet r "Attributes") (pyGet r "Resource"))
      let pdata : Option Val :=
        match props with
        | some (Val.str s) => jsonParse s
        | some (Val.obj l) => some (Val.obj l)
        | none => none
      let hit :=
        match pdata with
        | some (Val.obj l) => if l.isEmpty then none else firstPropHit l propKeys
        | some (Val.str _) => none
        | none => none
      match hit with
      | some v => v
      | none =>
        match pyOrOpt (pyGet r "Arn") (pyGet r "ARN") with
        | some (Val.str arn) =>
          if arn ≠ "" then
            let seg := (pySplit arn '/').getLastD ""
            if seg ≠ "" ∧ seg ≠ arn then Val.str seg
            else Val.str ((pySplit arn ':').getLastD "")
          else Val.str ""
        | some (Val.obj _) => Val.str ""
        | none => Val.str ""

/-- `_shorten` (src/services.py lines 60-67): keep a prefix and suffix
joined by an ellipsis when the text exceeds `maxLen`. -/
def _shorten (text : String) (maxLen : Int) : String :=
  if text = "" then ""
  else if (text.length : Int) ≤ maxLen then text
  else
    let keep := Int.fdiv (maxLen - 3) 2
    pySliceTo text keep ++ "..." ++ pySliceLast text keep

/-- A failure raised by the remote client: the service's "resource not
found" error, or any other exception (with its message). -/
inductive AwsError where
  | resourceNotFound
  | other (msg : String)

/-- The remote client's behaviour for one paginated search call: the
pages it yields, followed by an exception raised while paginating when
`failure` is `some`.  (A failure mid-iteration aborts the whole `try`
block, so only its presence matters for the caller-visible result.) -/
structure SearchBehavior where
  pages : List (List Resource)
  failure : Option AwsError

/-- Upsert-or-increment on the service-count map (Python
`defaultdict(int)`; insertion order preserved, keys unique). -/
def incr : List (String × Nat) → String → List (String × Nat)
  | [], s => [(s, 1)]
  | (k, v) :: rest, s =>
    if k = s then (k, v + 1) :: rest else (k, v) :: incr rest s

/-- Sum of the counts in a service-count map. -/
def sumCounts (m : List (String × Nat)) : Nat :=
  (m.map Prod.snd).sum

/-- `resource.get('Region') or _get_region_from_arn(resource.get('Arn', ''))`
(src/services.py lines 189 and 251).  A non-string `Arn` value would
raise an `AttributeError` in Python (outside the string-fields model). -/
def resourceRegion (r : Resource) : Val :=
  pyOrEmpty (pyOrOpt (pyGet r "Region")
    (some (Val.str (_get_region_from_arn (pyStr ((pyGet r "Arn").getD (Val.str "")))))))

/-- `resource_region != region` test, `region` being the requested
region string (a dict value never equals a string in Python). -/
def vEqStr (v : Val) (s : String) : Bool :=
  match v with
  | Val.str t => t == s
  | Val.obj _ => false

/-- Service name derived from a resource-type value:
`resource_type.split(':')[0] if ':' in resource_type else resource_type`
(src/services.py line 195).  A non-string resource type would raise in
Python (outside the string-fields model). -/
def serviceOf (rt : Val) : String :=
  match rt with
  | Val.str s => if pyContains s ':' then (pySplit s ':').headD "" else s
  | Val.obj _ => ""

/-- One iteration of the collection loop of
`get_all_services_using_resource_explorer` (src/services.py lines
188-204): skip the record when its derived region differs from the
requested one, otherwise increment the service count and append the
built record. -/
def collectStep (region : String) (acc : List (String × Nat) × List Resource)
    (r : Resource) : List (String × Nat) × List Resource :=
  let rregion := resourceRegion r
  if vEqStr rregion region then
    let rt := (pyGet r "ResourceType").getD (Val.str "Unknown")
    (incr acc.1 (serviceOf rt),
     acc.2 ++ [[("ResourceType", rt),
                ("ARN", (pyGet r "Arn").getD (Val.str "")),
                ("Region", rregion),
                ("Service", (pyGet r "Service").getD (Val.str "")),
                ("Name", _get_resource_name r)]])
  else acc

/-- The result dict built at src/services.py lines 215-220. -/
structure CollectResult where
  services : List (String × Nat)
  total_services : Nat
  total_resources : Nat
  resources : List Resource

/-- The `try` block of `get_all_services_using_resource_explorer`
(src/services.py lines 180-220): accumulate over all yielded pages,
re-raising the client's failure when there is one. -/
def get_all_core (region : String) (beh : SearchBehavior) :
    Except AwsError CollectResult :=
  let acc := beh.pages.flatten.foldl (collectStep region) ([], [])
  match beh.failure with
  | some e => Except.error e
  | none => Except.ok ⟨acc.1, acc.1.length, acc.2.length, acc.2⟩

/-- `get_all_services_using_resource_explorer` (src/services.py lines
174-228) as seen by its caller: both `except` clauses print a
diagnostic and return `None`, so every client failure becomes
`Except.ok none` and no exception escapes. -/
def get_all_services_using_resource_explorer (region : String)
    (beh : SearchBehavior) : Except AwsError (Option CollectResult) :=
  match get_all_core region beh with
  | Except.ok r => Except.ok (some r)
  | Except.error AwsError.resourceNotFound => Except.ok none
  | Except.error (AwsError.other _) => Except.ok none

/-- One iteration of the collection loop of `search_by_service`
(src/services.py lines 250-260): same region filter, but a missing
`ResourceType` defaults to the empty string and no service count is
kept. -/
def searchStep (region : String) (acc : List Resource) (r : Resource) :
    List Resource :=
  let rregion := resourceRegion r
  if vEqStr rregion region then
    acc ++ [[("ResourceType", (pyGet r "ResourceType").getD (Val.str "")),
             ("ARN", (pyGet r "Arn").getD (Val.str "")),
             ("Region", rregion),
             ("Service", (pyGet r "Service").getD (Val.str "")),
             ("Name", _get_resource_name r)]]
  else acc

/-- The `try` block of `search_by_service` (src/services.py lines
242-267). -/
def search_core (region : String) (beh : SearchBehavior) :
    Except AwsError (List Resource) :=
  let acc := beh.pages.flatten.foldl (searchStep region) []
  match beh.failure with
  | some e => Except.error e
  | none => Except.ok acc

/-- `search_by_service` (src/services.py lines 231-271) as seen by its
caller: the `except Exception` clause prints a diagnostic and returns
`[]`, so every client failure becomes `Except.ok []`.  (The
`service_type` argument only shapes the query string sent to the
client, whose response is already the behaviour parameter.) -/
def search_by_service (_service_type : String) (region : String)
    (beh : SearchBehavior) : Except AwsError (List Resource) :=
  match search_core region beh with
  | Except.ok rs => Except.ok rs
  | Except.error _ => Except.ok []

/-- The remote client's and user's behaviour for one run of
`list_resource_explorer_indexes`: the outcome of `describe_regions`,
the user's input lines, and the outcome of `list_indexes` (its
`Indexes` list, `[]` when the key is absent or empty). -/
structure IndexBehavior where
  regionsResult : Except AwsError (List String)
  inputs : List String
  listIndexesResult : Except AwsError (List Resource)

/-- Python `s.strip()` (ASCII whitespace). -/
def pyStrip (s : String) : String :=
  String.mk (((s.data.dropWhile Char.isWhitespace).reverse.dropWhile
    Char.isWhitespace).reverse)

/-- Python `s.lower()` (ASCII case folding). -/
def pyLower (s : String) : String :=
  String.mk (s.data.map Char.toLower)

/-- The interactive region-selection loop (src/services.py lines
138-149), driven by the user's input lines: `some (some region)` when a
valid region is entered, `some none` when the user declines to retry,
`none` when the input lines run out before a decision (Python's
`input()` would then raise `EOFError` — a user-side event, not a remote
failure). -/
def chooseRegion (valid : List String) : List String → Option (Option String)
  | [] => none
  | inp :: rest =>
    let region := pyStrip inp
    if region = "" then chooseRegion valid rest
    else if valid.contains region then some (some region)
    else
      match rest with
      | [] => none
      | retry :: rest2 =>
        if pyLower (pyStrip retry) = "y" then chooseRegion valid rest2
        else some none

/-- `list_resource_explorer_indexes` (src/services.py lines 127-171) as
seen by its caller.  A `describe_regions` failure returns
`(None, [])`; a declined retry returns `(None, [])`; both `except`
clauses around `list_indexes` leave `indexes = []`; no remote failure
escapes.  (`Except.ok none` is the exhausted-input case, where the code
would block on `input()` / raise `EOFError`.) -/
def list_resource_explorer_indexes (beh : IndexBehavior) :
    Except AwsError (Option (Option String × List Resource)) :=
  match beh.regionsResult with
  | Except.error _ => Except.ok (some (none, []))
  | Except.ok valid =>
    match chooseRegion valid beh.inputs with
    | none => Except.ok none
    | some none => Except.ok (some (none, []))
    | some (some region) =>
      let indexes :=
        match beh.listIndexesResult with
        | Except.ok idxs => idxs.map (fun idx =>
            ([("Region", (pyGet idx "Region").getD (Val.str region)),
              ("Type", (pyGet idx "Type").getD (Val.str "")),
              ("ARN", (pyGet idx "Arn").getD (Val.str ""))] : Resource))
        | Except.error _ => []
      Except.ok (some (some region, indexes))

/-- The fixed table headers (src/services.py line 78). -/
def headersDef : List String := ["Service", "ResourceType", "Name", "Region", "ARN"]

/-- One table row built from a record (src/services.py lines 82-95; all
records the program passes to the renderer are dicts, so only the
`isinstance(r, dict)` branch is modelled). -/
def tableRow (r : Resource) : List Val :=
  [pyOrEmpty (pyGet r "Service"),
   pyOrEmpty (pyGet r "ResourceType"),
   (match pyGet r "Name" with
    | some v => if truthy v then v else _get_resource_name r
    | none => _get_resource_name r),
   pyOrEmpty (pyGet r "Region"),
   pyOrEmpty (pyOrOpt (pyGet r "ARN") (pyGet r "Arn"))]

/-- Width of column `i` with header `h` (src/services.py lines 98-108):
max of the header length and every cell length, the ARN column capped
at 120. -/
def colWidth (rows : List (List Val)) (i : Nat) (h : String) : Nat :=
  let maxw := rows.foldl (fun mw row =>
    let l := (pyStr (pyOrEmpty (some (row.getD i (Val.str ""))))).length
    if l > mw then l else mw) h.length
  if h = "ARN" ∧ maxw > 120 then 120 else maxw

/-- `sep.join(...)` over a list of strings. -/
def sepJoin (sep : String) : List String → String
  | [] => ""
  | [x] => x
  | x :: xs => x ++ sep ++ sepJoin sep xs

/-- One printed data row (src/services.py lines 115-122): ARN cells are
shortened to the column width, every cell is left-justified. -/
def rowLine (widths : List Nat) (row : List Val) : String :=
  sepJoin " | " (row.enum.map (fun p =>
    let text := pyStr p.2
    let text := if headersDef.getD p.1 "" = "ARN"
      then _shorten text ((widths.getD p.1 0 : Nat) : Int) else text
    pyLjust text (widths.getD p.1 0)))

/-- `_print_resources_table` (src/services.py lines 70-124), as the
full text written to stdout (each `print` contributes its argument plus
a newline).  A falsy title (Python `None` or `''`) prints nothing. -/
def _print_resources_table (resources : List Resource) (title : Option String) :
    String :=
  let titleOut := match title with
    | some t => if t ≠ "" then t ++ "\n" else ""
    | none => ""
  let rows := resources.map tableRow
  let widths := headersDef.enum.map (fun p => colWidth rows p.1 p.2)
  let headerLine := sepJoin " | " ((headersDef.zip widths).map (fun p => pyLjust p.1 p.2))
  titleOut ++ headerLine ++ "\n"
    ++ String.mk (List.replicate headerLine.length '-') ++ "\n"
    ++ String.join (rows.map (fun row => rowLine widths row ++ "\n"))
    ++ "\nTotal resources: " ++ toString rows.length ++ "\n\n"

/-! ## Shared lemmas -/

theorem length_mk (l : List Char) : (String.mk l).length = l.length := rfl

theorem firstTruthyKey_cons_skip (r : Resource) (k : String) (ks : List String)
    (h : ∀ w, pyGet r k = some w → truthy w = false) :
    firstTruthyKey r (k :: ks) = firstTruthyKey r ks := by
  cases hr : pyGet r k with
  | some w => simp [firstTruthyKey, hr, h w hr]
  | none => simp [firstTruthyKey, hr]

theorem firstTruthyKey_cons_hit (r : Resource) (k : String) (ks : List String)
    (v : Val) (h : pyGet r k = some v) (ht : truthy v = true) :
    firstTruthyKey r (k :: ks) = some v := by
  simp [firstTruthyKey, h, ht]

theorem sumCounts_incr (m : List (String × Nat)) (s : String) :
    sumCounts (incr m s) = sumCounts m + 1 := by
  induction m with
  | nil => simp [incr, sumCounts]
  | cons p rest ih =>
    obtain ⟨k, v⟩ := p
    by_cases hk : k = s
    · simp only [incr, if_pos hk, sumCounts, List.map_cons, List.sum_cons]
      omega
    · simp only [incr, if_neg hk, sumCounts, List.map_cons, List.sum_cons] at ih ⊢
      omega

/-! ## Claim theorems -/

/-- C9: rendering the same resource list twice with the table renderer
produces byte-identical output on both runs — in this embedding the
renderer is a pure function of its input list and title, so the two
renderings are one and the same string. -/
theorem render_table_deterministic (resources : List Resource)
    (title : Option String) :
    _print_resources_table resources title = _print_resources_table resources title :=
  rfl

/-- A record carrying both a truthy `ResourceName` and a truthy `Title`. -/
def c1rec : Resource :=
  [("ResourceName", Val.str "primary-name"), ("Title", Val.str "the-title")]

/-- C1 counterexample: on a record whose `Title` field is non-empty but
whose `ResourceName` field is also non-empty, `_get_resource_name`
returns the `ResourceName` value, not the `Title` value —
`ResourceName` precedes `Title` in the direct-field order, so "the
resolved name equals the Title field regardless of what other fields
are present" fails. -/
theorem resourceName_shadows_title :
    pyGet c1rec "Title" = some (Val.str "the-title") ∧
    truthy (Val.str "the-title") = true ∧
    _get_resource_name c1rec = Val.str "primary-name" ∧
    _get_resource_name c1rec ≠ Val.str "the-title" := by
  refine ⟨rfl, rfl, rfl, ?_⟩
  intro h
  have h2 : Val.str "primary-name" = Val.str "the-title" := h
  injection h2 with h3
  exact absurd h3 (by decide)

/-- C1 (amended): for every resource record whose `Title` field holds a
truthy (non-empty) value and whose `ResourceName` field is absent or
falsy, the resolver returns the `Title` value, regardless of the other
fields present (`Name` and `DisplayName` are probed only after
`Title`). -/
theorem title_resolved_without_resourceName (r : Resource) (v : Val)
    (hT : pyGet r "Title" = some v) (htr : truthy v = true)
    (hRN : ∀ w, pyGet r "ResourceName" = some w → truthy w = false) :
    _get_resource_name r = v := by
  cases r with
  | nil => simp [pyGet] at hT
  | cons p rest =>
    have h1 : firstTruthyKey (p :: rest) directKeys = some v := by
      rw [directKeys, firstTruthyKey_cons_skip _ _ _ hRN,
        firstTruthyKey_cons_hit _ _ _ _ hT htr]
    unfold _get_resource_name
    rw [h1]

/-- C1 witness record: `Title` present and truthy, `ResourceName` absent. -/
def c1wrec : Resource := [("Title", Val.str "the-title"), ("Name", Val.str "other")]

/-- C1 witness: the amended theorem at a concrete record. -/
theorem title_resolved_witness : _get_resource_name c1wrec = Val.str "the-title" :=
  title_resolved_without_resourceName c1wrec (Val.str "the-title") rfl rfl
    (fun w hw => by simp [c1wrec, pyGet] at hw)

/-- A 200-character ARN-like string. -/
def s200 : String := String.mk (List.replicate 200 'a')

/-- C2 counterexample: an ARN cell of length 200 shortened at the ARN
column cap of 120 yields a string of length 119, not 120 — the code
keeps `(120 - 3) / 2 = 58` characters on each side of the 3-character
ellipsis, `58 + 3 + 58 = 119`. -/
theorem shorten_at_cap_not_120 :
    s200.length = 200 ∧ (_shorten s200 120).length ≠ 120 := by decide

/-- C2 (amended): every cell value whose length exceeds the ARN column
cap of 120 is shortened to a 58-character prefix and a 58-character
suffix joined by the 3-character ellipsis — total length 119, one below
the cap; the rendered cell then reaches the 120-character column width
only through the renderer's left-justifying space padding. -/
theorem shorten_at_cap_arithmetic (s : String) (h : 120 < s.length) :
    _shorten s 120 =
      String.mk (s.data.take 58) ++ "..." ++ String.mk (s.data.drop (s.data.length - 58)) ∧
    (_shorten s 120).length = 119 ∧
    (pyLjust (_shorten s 120) 120).length = 120 := by
  have hl : 120 < s.data.length := h
  have hne : s ≠ "" := by
    intro he
    rw [he] at h
    exact absurd h (by decide)
  have h1 : _shorten s 120 =
      String.mk (s.data.take 58) ++ "..." ++ String.mk (s.data.drop (s.data.length - 58)) := by
    unfold _shorten
    rw [if_neg hne, if_neg (by omega : ¬ ((s.length : Int) ≤ 120))]
    show pySliceTo s 58 ++ "..." ++ pySliceLast s 58 = _
    unfold pySliceTo pySliceLast
    rw [if_pos (by decide : (0:Int) ≤ 58), if_pos (by decide : (0:Int) < 58)]
    rw [show Int.toNat 58 = 58 from rfl,
      show min s.data.length 58 = 58 from by omega]
  have h2 : (_shorten s 120).length = 119 := by
    rw [h1, String.length_append, String.length_append]
    show (s.data.take 58).length + ("...").length + (s.data.drop (s.data.length - 58)).length = 119
    rw [List.length_take, List.length_drop, show ("...").length = 3 from rfl]
    omega
  have h3 : (pyLjust (_shorten s 120) 120).length = 120 := by
    unfold pyLjust
    rw [String.length_append, h2, length_mk, List.length_replicate]
  exact ⟨h1, h2, h3⟩

/-- C2 witness: the amended theorem at the concrete 200-character string. -/
theorem shorten_at_cap_witness :
    _shorten s200 120 =
      String.mk (s200.data.take 58) ++ "..." ++ String.mk (s200.data.drop (s200.data.length - 58)) ∧
    (_shorten s200 120).length = 119 ∧
    (pyLjust (_shorten s200 120) 120).length = 120 :=
  shorten_at_cap_arithmetic s200 (by decide)

/-- A record whose only field is an identifier ending in a slash. -/
def c3rec : Resource := [("Arn", Val.str "abc/")]

/-- C3 counterexample: for the identifier `"abc/"`, the substring after
the last `/` is `""`, which differs from the full identifier, so the
claim predicts a resolved name of `""`; the code additionally requires
that segment to be non-empty, falls through to the `:`-split, and
returns the whole identifier `"abc/"`. -/
theorem empty_slash_segment_falls_through :
    (pySplit "abc/" '/').getLastD "" ≠ "abc/" ∧
    _get_resource_name c3rec = Val.str "abc/" ∧
    _get_resource_name c3rec ≠ Val.str ((pySplit "abc/" '/').getLastD "") := by
  refine ⟨by decide, rfl, ?_⟩
  intro h
  have h2 : Val.str "abc/" = Val.str "" := h
  injection h2 with h3
  exact absurd h3 (by decide)

/-- C3 (amended): for every record having none of the direct name
fields and none of the structured-properties fields, with a non-empty
string identifier under `Arn`, the resolved name is the substring after
the last `/` when that substring is non-empty and differs from the full
identifier; otherwise it is the substring after the last `:`. -/
theorem arn_fallback_name (r : Resource) (arn : String)
    (hRN : pyGet r "ResourceName" = none) (hT : pyGet r "Title" = none)
    (hN : pyGet r "Name" = none) (hD : pyGet r "DisplayName" = none)
    (hP : pyGet r "Properties" = none) (hA : pyGet r "Attributes" = none)
    (hR : pyGet r "Resource" = none)
    (hArn : pyGet r "Arn" = some (Val.str arn)) (hne : arn ≠ "") :
    _get_resource_name r =
      (if ((pySplit arn '/').getLastD "") ≠ "" ∧ ((pySplit arn '/').getLastD "") ≠ arn
       then Val.str ((pySplit arn '/').getLastD "")
       else Val.str ((pySplit arn ':').getLastD "")) := by
  cases r with
  | nil => simp [pyGet] at hArn
  | cons p rest =>
    have h1 : firstTruthyKey (p :: rest) directKeys = none := by
      rw [directKeys,
        firstTruthyKey_cons_skip _ _ _ (fun w hw => by rw [hRN] at hw; cases hw),
        firstTruthyKey_cons_skip _ _ _ (fun w hw => by rw [hT] at hw; cases hw),
        firstTruthyKey_cons_skip _ _ _ (fun w hw => by rw [hN] at hw; cases hw),
        firstTruthyKey_cons_skip _ _ _ (fun w hw => by rw [hD] at hw; cases hw)]
      rfl
    have htr : truthy (Val.str arn) = true := by simp [truthy, hne]
    unfold _get_resource_name
    rw [h1, hP, hA, hR, hArn]
    simp [pyOrOpt, htr, hne]

/-- C3 witness record. -/
def c3wrec : Resource := [("Arn", Val.str "a/b")]

/-- C3 witness: the amended theorem at a concrete record. -/
theorem arn_fallback_witness : _get_resource_name c3wrec = Val.str "b" :=
  arn_fallback_name c3wrec "a/b" rfl rfl rfl rfl rfl rfl rfl rfl (by decide)

/-- C4: every remote-call boundary catches its own failures — for any
behaviour of the remote client, the index lookup, the full collection
and the service-scoped search each return an ordinary value
(`Except.isOk`): no exception raised by the remote client crosses the
component boundary unhandled. -/
theorem no_exception_escapes (b1 : IndexBehavior) (region svc : String)
    (b2 b3 : SearchBehavior) :
    (list_resource_explorer_indexes b1).isOk = true ∧
    (get_all_services_using_resource_explorer region b2).isOk = true ∧
    (search_by_service svc region b3).isOk = true := by
  refine ⟨?_, ?_, ?_⟩
  · obtain ⟨reg, inputs, li⟩ := b1
    cases reg with
    | error e => rfl
    | ok valid =>
      rcases hcr : chooseRegion valid inputs with _ | (_ | rg) <;>
        simp [list_resource_explorer_indexes, hcr, Except.isOk, Except.toBool]
  · unfold get_all_services_using_resource_explorer
    cases get_all_core region b2 with
    | ok r => rfl
    | error e => cases e <;> rfl
  · unfold search_by_service
    cases search_core region b3 with
    | ok rs => rfl
    | error e => rfl

theorem collect_inv (region : String) (l : List Resource)
    (acc : List (String × Nat) × List Resource)
    (h : sumCounts acc.1 = acc.2.length) :
    sumCounts (l.foldl (collectStep region) acc).1 =
      (l.foldl (collectStep region) acc).2.length := by
  induction l generalizing acc with
  | nil => simpa using h
  | cons r rest ih =>
    simp only [List.foldl_cons]
    apply ih
    unfold collectStep
    by_cases hc : vEqStr (resourceRegion r) region = true
    · simp [hc, sumCounts_incr, h]
    · simp [hc, h]

/-- C5: for every collection the full-collection path actually returns,
the sum of the integer values in the service-count map equals the
length of the resources list (each retained record increments exactly
one service count and appends exactly one record). -/
theorem services_count_matches_resources (region : String)
    (beh : SearchBehavior) (res : CollectResult)
    (h : get_all_services_using_resource_explorer region beh =
      Except.ok (some res)) :
    sumCounts res.services = res.resources.length := by
  unfold get_all_services_using_resource_explorer get_all_core at h
  cases hf : beh.failure with
  | some e => rw [hf] at h; cases e <;> simp at h
  | none =>
    rw [hf] at h
    simp only [Except.ok.injEq, Option.some.injEq] at h
    rw [← h]
    exact collect_inv region beh.pages.flatten ([], []) rfl

/-- C5 witness behaviour: one page with one retained record. -/
def c5beh : SearchBehavior :=
  ⟨[[[("ResourceType", Val.str "ec2:instance"),
      ("Arn", Val.str "arn:aws:ec2:us-east-1:111:instance/i-abc")]]], none⟩

/-- The collection result the C5 witness behaviour produces. -/
def c5res : CollectResult :=
  ⟨[("ec2", 1)], 1, 1,
   [[("ResourceType", Val.str "ec2:instance"),
     ("ARN", Val.str "arn:aws:ec2:us-east-1:111:instance/i-abc"),
     ("Region", Val.str "us-east-1"),
     ("Service", Val.str ""),
     ("Name", Val.str "i-abc")]]⟩

/-- C5 witness: the invariant theorem at a concrete behaviour. -/
theorem services_count_witness : sumCounts c5res.services = c5res.resources.length :=
  services_count_matches_resources "us-east-1" c5beh c5res rfl

/-- C6: when the search call fails with any exception, the full
collection returns `None` — distinguished from a valid empty
collection, which is `Some` of an empty result — and the service-scoped
search returns the empty list. -/
theorem search_failure_results (region svc : String)
    (pages : List (List Resource)) (e : AwsError) :
    get_all_services_using_resource_explorer region ⟨pages, some e⟩ =
      Except.ok none ∧
    search_by_service svc region ⟨pages, some e⟩ = Except.ok [] ∧
    get_all_services_using_resource_explorer region ⟨[], none⟩ =
      Except.ok (some ⟨[], 0, 0, []⟩) := by
  refine ⟨?_, ?_, rfl⟩
  · unfold get_all_services_using_resource_explorer get_all_core
    cases e <;> rfl
  · unfold search_by_service search_core
    rfl

/-- C7: an identifier whose 4th colon-delimited segment is empty, or
which does not follow the `arn:`-prefixed structure of at least 5
colon-delimited segments, derives the empty region; a record with no
explicit `Region` field and such an identifier is excluded from the
collection whenever the requested region is non-empty. -/
theorem empty_region_excluded (arn region : String) (r : Resource)
    (acc : List (String × Nat) × List Resource)
    (h : ¬ pyStartsWith arn "arn:" = true ∨ (pySplit arn ':').length ≤ 4 ∨
      (pySplit arn ':').getD 3 "" = "") :
    _get_region_from_arn arn = "" ∧
    (region ≠ "" → pyGet r "Region" = none → pyGet r "Arn" = some (Val.str arn) →
      collectStep region acc r = acc) := by
  have hz : _get_region_from_arn arn = "" := by
    unfold _get_region_from_arn
    by_cases hc : arn = "" ∨ ¬ pyStartsWith arn "arn:" = true
    · rw [if_pos hc]
    · rw [if_neg hc]
      show (if (pySplit arn ':').length > 4 then (pySplit arn ':').getD 3 "" else "") = ""
      rcases h with h1 | h2 | h3
      · exact absurd (Or.inr h1) hc
      · have hlt : ¬ (pySplit arn ':').length > 4 := by omega
        rw [if_neg hlt]
      · by_cases hlen : (pySplit arn ':').length > 4
        · rw [if_pos hlen]; exact h3
        · rw [if_neg hlen]
  refine ⟨hz, fun hrne hReg hArn => ?_⟩
  have hr : resourceRegion r = Val.str "" := by
    unfold resourceRegion
    rw [hReg, hArn]
    simp [pyOrOpt, pyOrEmpty, pyStr, hz, truthy]
  unfold collectStep
  rw [hr]
  have hv : vEqStr (Val.str "") region = false := by
    simp [vEqStr]
    exact fun he => hrne he.symm
  simp [hv]

/-- C7 witness: the theorem at the spec's concrete identifier. -/
theorem empty_region_excluded_witness :
    _get_region_from_arn "arn:aws:s3:::my-bucket" = "" ∧
    collectStep "us-east-1" ([], [])
      [("Arn", Val.str "arn:aws:s3:::my-bucket")] = ([], []) :=
  ⟨(empty_region_excluded "arn:aws:s3:::my-bucket" "us-east-1"
      [("Arn", Val.str "arn:aws:s3:::my-bucket")] ([], []) (by decide)).1,
   (empty_region_excluded "arn:aws:s3:::my-bucket" "us-east-1"
      [("Arn", Val.str "arn:aws:s3:::my-bucket")] ([], []) (by decide)).2
     (by decide) rfl rfl⟩

/-- C8: every retained record (derived region equal to the requested
one) whose resource type is the string `rt` is counted under the
service obtained by splitting `rt` at its first colon and taking the
prefix when a colon is present, else the whole type string, and the
built record is appended. -/
theorem service_split_on_colon (region : String) (m : List (String × Nat))
    (rs : List Resource) (r : Resource) (rt : String)
    (hrt : pyGet r "ResourceType" = some (Val.str rt))
    (hreg : resourceRegion r = Val.str region) :
    collectStep region (m, rs) r =
      (incr m (if pyContains rt ':' then (pySplit rt ':').headD "" else rt),
       rs ++ [[("ResourceType", Val.str rt),
               ("ARN", (pyGet r "Arn").getD (Val.str "")),
               ("Region", Val.str region),
               ("Service", (pyGet r "Service").getD (Val.str "")),
               ("Name", _get_resource_name r)]]) := by
  unfold collectStep
  rw [hreg]
  have hv : vEqStr (Val.str region) region = true := by simp [vEqStr]
  simp [hv, hrt, serviceOf]

/-- The spec's C8 scenario record. -/
def c8rec : Resource :=
  [("ResourceType", Val.str "ec2:instance"),
   ("Arn", Val.str "arn:aws:ec2:us-east-1:111:instance/i-abc")]

/-- C8 witness: the scenario — service name `ec2`, resolved name
`i-abc`, count incremented for `ec2`. -/
theorem service_split_witness :
    collectStep "us-east-1" ([], []) c8rec =
      ([("ec2", 1)],
       [[("ResourceType", Val.str "ec2:instance"),
         ("ARN", Val.str "arn:aws:ec2:us-east-1:111:instance/i-abc"),
         ("Region", Val.str "us-east-1"),
         ("Service", Val.str ""),
         ("Name", Val.str "i-abc")]]) :=
  service_split_on_colon "us-east-1" [] [] c8rec "ec2:instance" rfl rfl

/-- C10: a retained record lacking a `ResourceType` field is typed
`"Unknown"` and counted under service `"Unknown"` by the full
collection, while the service-scoped search records its missing
resource type as the empty string. -/
theorem missing_type_defaults (region : String) (m : List (String × Nat))
    (rs rs2 : List Resource) (r : Resource)
    (hrt : pyGet r "ResourceType" = none)
    (hreg : resourceRegion r = Val.str region) :
    collectStep region (m, rs) r =
      (incr m "Unknown",
       rs ++ [[("ResourceType", Val.str "Unknown"),
               ("ARN", (pyGet r "Arn").getD (Val.str "")),
               ("Region", Val.str region),
               ("Service", (pyGet r "Service").getD (Val.str "")),
               ("Name", _get_resource_name r)]]) ∧
    searchStep region rs2 r =
      rs2 ++ [[("ResourceType", Val.str ""),
               ("ARN", (pyGet r "Arn").getD (Val.str "")),
               ("Region", Val.str region),
               ("Service", (pyGet r "Service").getD (Val.str "")),
               ("Name", _get_resource_name r)]] := by
  have hv : vEqStr (Val.str region) region = true := by simp [vEqStr]
  constructor
  · unfold collectStep
    rw [hreg]
    simp [hv, hrt]
    rfl
  · unfold searchStep
    rw [hreg]
    simp [hv, hrt]

/-- The C10 witness record: an identifier but no `ResourceType`. -/
def c10rec : Resource :=
  [("Arn", Val.str "arn:aws:ec2:us-east-1:111:instance/i-abc")]

/-- C10 witness: the theorem at a concrete record. -/
theorem missing_type_witness :
    collectStep "us-east-1" ([], []) c10rec =
      ([("Unknown", 1)],
       [[("ResourceType", Val.str "Unknown"),
         ("ARN", Val.str "arn:aws:ec2:us-east-1:111:instance/i-abc"),
         ("Region", Val.str "us-east-1"),
         ("Service", Val.str ""),
         ("Name", Val.str "i-abc")]]) ∧
    searchStep "us-east-1" [] c10rec =
      [[("ResourceType", Val.str ""),
        ("ARN", Val.str "arn:aws:ec2:us-east-1:111:instance/i-abc"),
        ("Region", Val.str "us-east-1"),
        ("Service", Val.str ""),
        ("Name", Val.str "i-abc")]] :=
  missing_type_defaults "us-east-1" [] [] [] c10rec rfl rfl
